import Mathlib

/-!
Verification development for the seadrive-gui message poller
(`src/message-poller.cpp`): a shallow embedding of the polling and
notification-dispatch engine, together with theorems checking the
specification's statements against the code.

Modelling conventions:
* JSON payloads (jansson trees read through the `Json` helper) are
  association lists of string keys to leaf values.
* Side effects on the tray icon, the RPC client and the GUI are
  reified as a list of `Act` values emitted by each handler.
* Qt string formatting (`tr(...).arg(...)`) is embedded as string
  concatenation of the source-language text.
-/

/-- A JSON leaf value as read by the poller (string, integer or bool). -/
inductive JVal where
  | jstr (s : String)
  | jint (n : Int)
  | jbool (b : Bool)
deriving DecidableEq, Repr

/-- A JSON object payload: an association list from keys to leaf values. -/
abbrev Payload := List (String × JVal)

namespace Json

/-- Raw key lookup in a payload. -/
def lookupKey (p : Payload) (k : String) : Option JVal :=
  (p.find? (fun kv => kv.1 == k)).map (fun kv => kv.2)

/-- Modelled from the spec: the `Json` helper's defaulting string read
(`utils/json-utils.h` is not under `src/`); "absent fields default to
empty-string/0/false on read", "every field access is a defaulting lookup". -/
def getString (p : Payload) (k : String) : String :=
  match lookupKey p k with
  | some (JVal.jstr v) => v
  | _ => ""

/-- Modelled from the spec: the `Json` helper's defaulting integer read. -/
def getLong (p : Payload) (k : String) : Int :=
  match lookupKey p k with
  | some (JVal.jint v) => v
  | _ => 0

/-- Modelled from the spec: the `Json` helper's defaulting boolean read. -/
def getBool (p : Payload) (k : String) : Bool :=
  match lookupKey p k with
  | some (JVal.jbool v) => v
  | _ => false

end Json

/-- Infix test on character lists, by structural recursion (so that
concrete instances evaluate by `decide`). -/
def isInfixChars (pat : List Char) : List Char → Bool
  | [] => pat.isEmpty
  | c :: rest => List.isPrefixOf pat (c :: rest) || isInfixChars pat rest

/-- Substring containment, used to state that a message "references" a
file name: `pat` occurs contiguously inside `s`. -/
def strContains (s pat : String) : Bool :=
  isInfixChars pat.data s.data

/-- Prefix test `strStartsWith s pre`, embedding `QString::startsWith`. -/
def strStartsWith (s pre : String) : Bool :=
  List.isPrefixOf pre.data s.data

/-- Suffix test `strEndsWith s suf`, embedding `QString::endsWith`. -/
def strEndsWith (s suf : String) : Bool :=
  List.isPrefixOf suf.data.reverse s.data.reverse

/-- Characters counted as whitespace by `QString::trimmed`. -/
def isQtSpace (c : Char) : Bool :=
  c == ' ' || c == '\t' || c == '\n' || c == '\r'

/-- Trimming `qtrim`, embedding `QString::trimmed`: strip whitespace at both ends. -/
def qtrim (s : String) : String :=
  String.mk (((s.data.dropWhile isQtSpace).reverse.dropWhile isQtSpace).reverse)

/-- The characters after the last occurrence of `sep`, or the whole list
when `sep` does not occur. -/
def afterLastSep (sep : Char) (l : List Char) : List Char :=
  l.foldl (fun acc c => if c == sep then [] else acc ++ [c]) []

/-- Modelled from the spec: `getBaseName` from `utils/file-utils.h` (not
under `src/`); returns the final component of a slash-separated path. -/
def getBaseName (path : String) : String :=
  if path.data.contains '/' then String.mk (afterLastSep '/' path.data)
  else path

/-- Modelled from the spec: `getParentPath` from `utils/file-utils.h` (not
under `src/`); returns the path with its final slash and component removed. -/
def getParentPath (path : String) : String :=
  match path.data.reverse.dropWhile (fun c => c != '/') with
  | [] => ""
  | _ :: rest => String.mk rest.reverse

/-- Split a character list at every occurrence of the character `sep`
(the embedding of `QString::split`). -/
def splitOnSep (sep : Char) : List Char → List (List Char)
  | [] => [[]]
  | c :: rest =>
    match splitOnSep sep rest with
    | [] => if c == sep then [[], []] else [[c]]
    | h :: t => if c == sep then [] :: h :: t else (c :: h) :: t

/-- The embedding of `type.split(".").last()` used for the cross-repo-move
subtype. -/
def lastDotComponent (s : String) : String :=
  String.mk ((splitOnSep '.' s.data).getLastD [])

/-- Modelled from the spec: `translateCommitDesc` (localization helper,
out of scope per §1), embedded as the identity on the description text. -/
def translateCommitDesc (s : String) : String := s

namespace SyncError

/-- Modelled from the spec: the external error-catalog collaborator
`errorIdToMessage(id, path) -> string` (`rpc/sync-error.h` is not under
`src/`); yields a non-empty human-readable string from the id and path. -/
def syncErrorIdToErrorStr (id : Int) (path : String) : String :=
  "sync error " ++ toString id ++ " on " ++ path

end SyncError

/-- Modelled from the spec: the numeric id of the Windows-incompatible-path
sync error (`SYNC_ERROR_ID_INVALID_PATH_ON_WINDOWS`, from `rpc/sync-error.h`,
not under `src/`); its concrete value is irrelevant to the dispatch logic. -/
def syncErrorIdInvalidPathOnWindows : Int := 14

/-- The poll interval constant `kCheckNotificationIntervalMSecs`
(`message-poller.cpp` line 25). -/
def kCheckNotificationIntervalMSecs : Int := 1000

/-- Severity of a tray message (`QSystemTrayIcon::MessageIcon`); the
default for `showMessage` is `information`. -/
inductive Severity where
  | information
  | warning
deriving DecidableEq, Repr

/-- An opaque decoded sync-error list item: `SyncError` is an external
type decoded elsewhere (`rpc/sync-error.h`, not under `src/`); per the
spec it is "treated as an opaque list item". -/
structure SyncErrorItem where
  raw : Payload
deriving DecidableEq, Repr

/-- A reified side effect of the poller: a call into the Action Sink
(tray icon / GUI), back into the Daemon Client, an emitted signal, a
platform action, or a logged warning. -/
inductive Act where
  | showMessage (title body repo_id commit_id parent_commit_id : String)
      (severity : Severity)
  | showWarningMessage (title body : String)
  | rotate (active : Bool)
  | setTransferRate (sent recv : Int)
  | setSyncErrors (errors : List SyncErrorItem)
  | confirmBox (text info : String)
  | addDelConfirmation (confirmation_id : String) (declined : Bool)
  | emitSeadriveFSLoaded
  | doShareLink (repo_id repo_path : String)
  | doInternalLink (repo_id repo_path : String) (is_dir : Bool)
  | doGetUploadLink (repo_id repo_path : String)
  | doShowFileHistory (repo_id repo_path : String)
  | logUnknownNotification (tag : String)
deriving DecidableEq, Repr

/-- The filesystem-operation error kind of a `SeaDriveEvent`
(`message-poller.cpp` lines 39-43). -/
inductive SeaDriveEvent.FsOpError where
  | UNKNOWN_ERROR
  | CREATE_ROOT_FILE
  | REMOVE_REPO
deriving DecidableEq, Repr

/-- A decoded SeaDrive filesystem event (`message-poller.cpp` lines 37-70). -/
structure SeaDriveEvent where
  fs_op_error : SeaDriveEvent.FsOpError
  path : String
  type : String
deriving DecidableEq, Repr

/-- Decoder `SeaDriveEvent::fromJson` (`message-poller.cpp` lines 48-69). -/
def SeaDriveEvent.fromJson (p : Payload) : SeaDriveEvent :=
  let t := Json.getString p "type"
  { fs_op_error :=
      if t = "fs_op_error.create_root_file" then FsOpError.CREATE_ROOT_FILE
      else if t = "fs_op_error.remove_repo" then FsOpError.REMOVE_REPO
      else FsOpError.UNKNOWN_ERROR
    path := Json.getString p "path"
    type := t }

/-- The cross-repo-move sub-record of a `SyncNotification` (`move.src_path`,
`move.dst_path`, `move.type`). Fields default to empty, per the spec:
"absent fields default to empty-string/0/false on read". -/
structure CrossRepoMoveInfo where
  src_path : String := ""
  dst_path : String := ""
  type : String := ""
deriving DecidableEq, Repr

/-- A decoded sync notification. The field set is taken from the reads in
`message-poller.cpp`; the header (`message-poller.h`) is not under `src/`,
so the empty/zero field defaults are modelled from the spec. -/
structure SyncNotification where
  type : String := ""
  repo_id : String := ""
  repo_name : String := ""
  commit_id : String := ""
  parent_commit_id : String := ""
  commit_desc : String := ""
  error_id : Int := 0
  error_path : String := ""
  error : String := ""
  move : CrossRepoMoveInfo := {}
  confirmation_id : String := ""
  delete_files : String := ""
  repo_path : String := ""
  domain_id : String := ""
  is_dir : Bool := false
deriving DecidableEq, Repr

/-- Modelled from the spec: `SyncNotification::isCrossRepoMove` (declared in
`message-poller.h`, not under `src/`): the tag family `cross-repo-move.*`,
matched by prefix as in `fromJson`. -/
def SyncNotification.isCrossRepoMove (n : SyncNotification) : Bool :=
  strStartsWith n.type "cross-repo-move."

/-- Modelled from the spec: `SyncNotification::isSyncError` (declared in
`message-poller.h`, not under `src/`): the `sync.error` sync-error variant. -/
def SyncNotification.isSyncError (n : SyncNotification) : Bool :=
  n.type == "sync.error"

/-- Decoder `SyncNotification::fromJson` (`message-poller.cpp` lines 369-414). -/
def SyncNotification.fromJson (p : Payload) : SyncNotification :=
  let t := Json.getString p "type"
  if strStartsWith t "cross-repo-move." then
    { type := t
      move := { src_path := Json.getString p "srcpath"
                dst_path := Json.getString p "dstpath"
                type := lastDotComponent t } }
  else if t = "del_confirmation" then
    { type := t
      repo_name := Json.getString p "repo_name"
      confirmation_id := Json.getString p "confirmation_id"
      delete_files := Json.getString p "delete_files" }
  else if t = "del_repo_confirmation" then
    { type := t
      repo_name := Json.getString p "repo_name"
      confirmation_id := Json.getString p "confirmation_id" }
  else if t = "action.get_share_link" ∨ t = "action.get_internal_link" ∨
          t = "action.get_upload_link" ∨ t = "action.view_file_history" then
    { type := t
      repo_id := Json.getString p "repo_id"
      repo_path := Json.getString p "repo_path"
      domain_id := Json.getString p "domain_id"
      is_dir := Json.getBool p "is_dir" }
  else
    let base : SyncNotification :=
      { type := t
        repo_id := Json.getString p "repo_id"
        repo_name := Json.getString p "repo_name"
        commit_id := Json.getString p "commit_id"
        parent_commit_id := Json.getString p "parent_commit_id"
        commit_desc := Json.getString p "commit_desc" }
    if base.isSyncError then
      { base with
          error_id := Json.getLong p "err_id"
          error_path := Json.getString p "path"
          error := SyncError.syncErrorIdToErrorStr (Json.getLong p "err_id")
                     (Json.getString p "path") }
    else base

/-- The decoded global sync status (`message-poller.cpp` lines 27-33). -/
structure GlobalSyncStatus where
  is_syncing : Bool
  sent_bytes : Int
  recv_bytes : Int
deriving DecidableEq, Repr

/-- Decoder `GlobalSyncStatus::fromJson` (`message-poller.cpp` lines 417-431);
`is_syncing` is read with `getLong` and converted to `bool` (non-zero). -/
def GlobalSyncStatus.fromJson (p : Payload) : GlobalSyncStatus :=
  { is_syncing := Json.getLong p "is_syncing" != 0
    sent_bytes := Json.getLong p "sent_bytes"
    recv_bytes := Json.getLong p "recv_bytes" }

/-- Split a character list around the first occurrence of the separator
sequence `sep`: `findFirstSplit sep l = some (b, a)` when `l = b ++ sep ++ a`
with `sep` not occurring earlier. -/
def findFirstSplit (sep : List Char) : List Char → Option (List Char × List Char)
  | [] => none
  | c :: rest =>
    if List.isPrefixOf sep (c :: rest) then
      some ([], (c :: rest).drop sep.length)
    else
      match findFirstSplit sep rest with
      | some (b, a) => some (c :: b, a)
      | none => none

/-- Matching of the fixed deletion-summary pattern
`Deleted "(.+)" and (.+) more files.` (`message-poller.cpp` line 272).
Modelled from the spec: the regular-expression engine
(`QRegularExpression`) is an external library; greedy `(.+)` capture is
modelled by splitting the core at the last occurrence of `" and ` (the
first occurrence in the reversed core), with both captures non-empty. -/
def matchDeletePattern (s : String) : Option (String × String) :=
  if strStartsWith s "Deleted \"" && strEndsWith s " more files." then
    let core := (s.data.drop 9).take (s.data.length - 9 - 12)
    match findFirstSplit ("\" and ").data.reverse core.reverse with
    | some (g2r, g1r) =>
      if g1r.isEmpty || g2r.isEmpty then none
      else some (String.mk g1r.reverse, String.mk g2r.reverse)
    | none => none
  else none

/-- The GUI environment a poll tick runs in: the notification preference,
the macOS-only suppression preference, the user's answer to a blocking
confirmation dialog (`false` when declined or dismissed), the validity of
the account resolved by domain id, and the compile-time platform. -/
structure Env where
  notify : Bool
  hideWinIncompat : Bool
  confirmAnswer : Bool
  accountValid : Bool
  isMac : Bool
deriving DecidableEq, Repr

/-- The poller's cross-tick event state (`last_event_path_`,
`last_event_type_` members of `MessagePoller`). -/
structure MessagePollerState where
  last_event_path : String := ""
  last_event_type : String := ""
deriving DecidableEq, Repr

/-- The Daemon Client as seen by one tick: connectivity plus the pending
payload of each of the four channels (`none` embeds a request that
returned false: nothing pending or a failed request). The sync-error
list is carried already decoded, `SyncError::listFromJSON` being external. -/
structure RpcClient where
  connected : Bool
  seadrive_events : Option Payload := none
  sync_notification : Option Payload := none
  global_sync_status : Option Payload := none
  sync_errors : Option (List SyncErrorItem) := none
deriving DecidableEq, Repr

/-- Classifier `MessagePoller::processNotification` (`message-poller.cpp`
lines 185-334), with every GUI/RPC side effect reified as an `Act`.
Platform-conditional branches (`Q_OS_MAC`) are guarded by `env.isMac`. -/
def MessagePoller.processNotification (env : Env) (n : SyncNotification) :
    List Act :=
  if n.type = "sync.done" then
    if !env.notify then []
    else [Act.showMessage ("\"" ++ n.repo_name ++ "\" is synchronized")
            (translateCommitDesc n.commit_desc)
            n.repo_id n.commit_id n.parent_commit_id Severity.information]
  else if n.type = "sync.error" then
    if env.isMac && n.error_id == syncErrorIdInvalidPathOnWindows &&
        env.hideWinIncompat then []
    else
      let path_in_title :=
        if n.repo_name ≠ "" then n.repo_name
        else if n.error_path ≠ "" then getBaseName n.error_path
        else ""
      let title :=
        if path_in_title ≠ "" then
          "Error when syncing \"" ++ path_in_title ++ "\""
        else "Error when syncing"
      [Act.showMessage title n.error n.repo_id "" "" Severity.warning]
  else if n.type = "sync.multipart_upload" then
    if !env.notify then []
    else [Act.showMessage ("\"" ++ n.repo_name ++ "\" is being uploaded")
            (translateCommitDesc n.commit_desc)
            n.repo_id n.commit_id n.parent_commit_id Severity.information]
  else if n.type = "fs-loaded" then
    [Act.showMessage "Libraries are ready"
       "All libraries are loaded and ready to use." "" "" ""
       Severity.information,
     Act.emitSeadriveFSLoaded]
  else if n.isCrossRepoMove then
    let src := getBaseName n.move.src_path
    let dst := getParentPath n.move.dst_path ++ "/"
    let tb : String × String :=
      if n.move.type = "start" then
        ("Starting to move \"" ++ src ++ "\"",
         "Starting to move \"" ++ src ++ "\" to \"" ++ dst ++ "\"")
      else if n.move.type = "done" then
        ("Successfully moved \"" ++ src ++ "\"",
         "Successfully moved \"" ++ src ++ "\" to \"" ++ dst ++ "\"")
      else if n.move.type = "error" then
        ("Failed to move \"" ++ src ++ "\"",
         "Failed to move \"" ++ src ++ "\" to \"" ++ dst ++ "\"")
      else ("", "")
    [Act.showMessage tb.1 tb.2 "" "" "" Severity.information]
  else if n.type = "del_confirmation" then
    let text :=
      match matchDeletePattern (qtrim n.delete_files) with
      | some (g1, g2) =>
        "Deleted \"" ++ g1 ++ "\" and " ++ g2 ++ " more files."
      | none => ""
    let info := "Do you want to delete files in library \"" ++
                  qtrim n.repo_name ++ "\" ?"
    if env.confirmAnswer then
      [Act.confirmBox text info,
       Act.addDelConfirmation n.confirmation_id false]
    else
      [Act.confirmBox text info,
       Act.addDelConfirmation n.confirmation_id true]
  else if n.type = "del_repo_confirmation" then
    let text := "Deleted library \"" ++ qtrim n.repo_name ++ "\""
    let info := "Confirm to delete library \"" ++ qtrim n.repo_name ++ "\" ?"
    if env.confirmAnswer then
      [Act.confirmBox text info,
       Act.addDelConfirmation n.confirmation_id false]
    else
      [Act.confirmBox text info,
       Act.addDelConfirmation n.confirmation_id true]
  else if n.type = "action.get_share_link" then
    if env.isMac then
      if !env.accountValid then []
      else [Act.doShareLink n.repo_id n.repo_path]
    else []
  else if n.type = "action.get_internal_link" then
    if env.isMac then
      if !env.accountValid then []
      else [Act.doInternalLink n.repo_id n.repo_path n.is_dir]
    else []
  else if n.type = "action.get_upload_link" then
    if env.isMac then
      if !env.accountValid then []
      else [Act.doGetUploadLink n.repo_id n.repo_path]
    else []
  else if n.type = "action.view_file_history" then
    if env.isMac then
      if !env.accountValid then []
      else [Act.doShowFileHistory n.repo_id n.repo_path]
    else []
  else
    [Act.logUnknownNotification n.type]

/-- Handler `MessagePoller::processSeaDriveEvent` (`message-poller.cpp`
lines 336-367): updates the last-event state and dispatches the message
for the event. -/
def MessagePoller.processSeaDriveEvent (st : MessagePollerState)
    (e : SeaDriveEvent) : MessagePollerState × List Act :=
  let st1 := { st with last_event_path := e.path }
  if e.type = "file-download.start" then
    ({ st1 with last_event_type := e.type },
     [Act.showMessage "Download file"
        ("Start to download file \"" ++ getBaseName e.path ++ "\" ")
        "" "" "" Severity.information])
  else if e.type = "file-download.done" then
    ({ st1 with last_event_type := e.type },
     [Act.showMessage "Download file"
        ("file \"" ++ getBaseName e.path ++ "\" has been downloaded ")
        "" "" "" Severity.information])
  else
    match e.fs_op_error with
    | SeaDriveEvent.FsOpError.CREATE_ROOT_FILE =>
      (st1, [Act.showWarningMessage
               ("Failed to create file \"" ++ getBaseName e.path ++ "\"")
               "You can't create files in the mount folder directly"])
    | SeaDriveEvent.FsOpError.REMOVE_REPO =>
      (st1, [Act.showWarningMessage "Failed to delete folder"
               ("You can't delete the library \"" ++ getBaseName e.path ++
                  "\" directly")])
    | SeaDriveEvent.FsOpError.UNKNOWN_ERROR => (st1, [])

/-- Tick handler `MessagePoller::checkSeaDriveEvents` (`message-poller.cpp`
lines 117-130): the fs-events channel tick handler. -/
def MessagePoller.checkSeaDriveEvents (rpc : RpcClient)
    (st : MessagePollerState) : MessagePollerState × List Act :=
  if !rpc.connected then (st, [])
  else
    match rpc.seadrive_events with
    | none => (st, [])
    | some payload =>
      MessagePoller.processSeaDriveEvent st (SeaDriveEvent.fromJson payload)

/-- Tick handler `MessagePoller::checkNotification` (`message-poller.cpp`
lines 132-145): the sync-notifications channel tick handler. -/
def MessagePoller.checkNotification (rpc : RpcClient) (env : Env) :
    List Act :=
  if !rpc.connected then []
  else
    match rpc.sync_notification with
    | none => []
    | some payload =>
      MessagePoller.processNotification env (SyncNotification.fromJson payload)

/-- Tick handler `MessagePoller::checkSyncStatus` (`message-poller.cpp`
lines 147-166): the global-sync-status channel tick handler. -/
def MessagePoller.checkSyncStatus (rpc : RpcClient) : List Act :=
  if !rpc.connected then []
  else
    match rpc.global_sync_status with
    | none => []
    | some payload =>
      let s := GlobalSyncStatus.fromJson payload
      if s.is_syncing then
        [Act.rotate true, Act.setTransferRate s.sent_bytes s.recv_bytes]
      else
        [Act.rotate false, Act.setTransferRate 0 0]

/-- Tick handler `MessagePoller::checkSyncErrors` (`message-poller.cpp`
lines 168-183): the sync-errors channel tick handler. When disconnected
it returns without touching the error list; when the request fails it
replaces the error list with the empty list. -/
def MessagePoller.checkSyncErrors (rpc : RpcClient) : List Act :=
  if !rpc.connected then []
  else
    match rpc.sync_errors with
    | none => [Act.setSyncErrors []]
    | some errors => [Act.setSyncErrors errors]

/-- Recognizer for the `addDelConfirmation` Daemon Client call among the
reified effects. -/
def isAddDelAct : Act → Bool
  | Act.addDelConfirmation _ _ => true
  | _ => false

/-- Recognizer for warning-severity dispatches (either a
`showWarningMessage` call or a warning-severity `showMessage`). -/
def isWarningAct : Act → Bool
  | Act.showWarningMessage _ _ => true
  | Act.showMessage _ _ _ _ _ Severity.warning => true
  | _ => false

/-- The state of the single `QTimer` owned by `MessagePoller`
(`check_notification_timer_`): whether it is active and its interval.
There is exactly one timer object, created once in the constructor;
`QTimer::start` on a running timer restarts that same timer. -/
structure TimerState where
  active : Bool
  interval : Int
deriving DecidableEq, Repr

/-- Lifecycle slot `MessagePoller::onDaemonDead` (`message-poller.cpp` lines 106-110):
stops the timer. -/
def MessagePoller.onDaemonDead (t : TimerState) : TimerState :=
  { t with active := false }

/-- Lifecycle slot `MessagePoller::onDaemonRestarted` (`message-poller.cpp`
lines 112-115): (re)starts the single timer at the default interval. -/
def MessagePoller.onDaemonRestarted (_t : TimerState) : TimerState :=
  { active := true, interval := kCheckNotificationIntervalMSecs }

/-- The tags recognized by `processNotification` (every branch of its
if/else chain except the final unknown-tag warning). -/
def isKnownNotificationTag (t : String) : Bool :=
  t == "sync.done" || t == "sync.error" || t == "sync.multipart_upload" ||
  t == "fs-loaded" || strStartsWith t "cross-repo-move." ||
  t == "del_confirmation" || t == "del_repo_confirmation" ||
  t == "action.get_share_link" || t == "action.get_internal_link" ||
  t == "action.get_upload_link" || t == "action.view_file_history"

example : Json.getString [("type", JVal.jstr "x")] "type" = "x" := by decide
example : Json.getString [("a", JVal.jstr "x")] "type" = "" := by decide
example : getBaseName "/mnt/x/foo.txt" = "foo.txt" := by decide
example : getBaseName "foo.txt" = "foo.txt" := by decide
example : getParentPath "/mnt/x/foo.txt" = "/mnt/x" := by decide
example : strContains "abc foo.txt def" "foo.txt" = true := by decide
example : strContains "abc" "foo" = false := by decide
example : ("abc" ++ "de").length = 5 := by decide
example : strStartsWith "del_confirmation" "cross-repo-move." = false := by decide
example : strStartsWith "cross-repo-move.start" "cross-repo-move." = true := by decide
example : lastDotComponent "cross-repo-move.start" = "start" := by decide
example : qtrim "  ab c  " = "ab c" := by decide
example : strEndsWith "x more files." " more files." = true := by decide
example : matchDeletePattern "Deleted \"a.txt\" and 3 more files." =
    some ("a.txt", "3") := by decide
example : matchDeletePattern "" = none := by decide
example : MessagePoller.processNotification
    ⟨true, false, true, false, false⟩
    (SyncNotification.fromJson
      [("type", JVal.jstr "del_confirmation"),
       ("confirmation_id", JVal.jstr "c1"),
       ("repo_name", JVal.jstr "Docs")]) =
    [Act.confirmBox "" "Do you want to delete files in library \"Docs\" ?",
     Act.addDelConfirmation "c1" false] := by decide

/-- C1 counterexample: with the daemon disconnected and a non-empty
pending error list, `checkSyncErrors` performs no action at all — in
particular it does not replace the Action Sink's error list with the
empty list, contradicting the claim's sync-errors clause. -/
theorem checkSyncErrors_disconnected_cex :
    MessagePoller.checkSyncErrors
        { connected := false,
          sync_errors := some [⟨[("err", JVal.jstr "x")]⟩] } = [] ∧
    Act.setSyncErrors [] ∉
      MessagePoller.checkSyncErrors
        { connected := false,
          sync_errors := some [⟨[("err", JVal.jstr "x")]⟩] } := by
  decide

/-- C1 (amended): for every one of the four poll channels, if
`isConnected()` is false at the start of the tick handler then no decode,
classification or dispatch occurs for that channel this tick (the
sync-errors list is left untouched); the sync-errors channel replaces the
Action Sink's error list with the empty list only when the daemon is
connected but the `getSyncErrors` request fails. -/
theorem poll_channels_disconnected_skip (rpc : RpcClient)
    (st : MessagePollerState) (env : Env) :
    (rpc.connected = false →
      MessagePoller.checkSeaDriveEvents rpc st = (st, []) ∧
      MessagePoller.checkNotification rpc env = [] ∧
      MessagePoller.checkSyncStatus rpc = [] ∧
      MessagePoller.checkSyncErrors rpc = []) ∧
    (rpc.connected = true → rpc.sync_errors = none →
      MessagePoller.checkSyncErrors rpc = [Act.setSyncErrors []]) := by
  constructor
  · intro h
    simp [MessagePoller.checkSeaDriveEvents, MessagePoller.checkNotification,
          MessagePoller.checkSyncStatus, MessagePoller.checkSyncErrors, h]
  · intro h1 h2
    simp [MessagePoller.checkSyncErrors, h1, h2]

/-- C1 witness: the amended theorem applied at a disconnected client and
at a connected client whose sync-errors request fails. -/
theorem poll_channels_disconnected_skip_witness :
    (MessagePoller.checkSeaDriveEvents { connected := false } {} = ({}, []) ∧
     MessagePoller.checkNotification { connected := false }
       ⟨true, false, true, false, false⟩ = [] ∧
     MessagePoller.checkSyncStatus { connected := false } = [] ∧
     MessagePoller.checkSyncErrors { connected := false } = []) ∧
    MessagePoller.checkSyncErrors { connected := true } =
      [Act.setSyncErrors []] :=
  ⟨(poll_channels_disconnected_skip { connected := false } {}
      ⟨true, false, true, false, false⟩).1 rfl,
   (poll_channels_disconnected_skip { connected := true } {}
      ⟨true, false, true, false, false⟩).2 rfl rfl⟩

/-- C3: every `del_confirmation` or `del_repo_confirmation` notification
produces exactly one `addDelConfirmation` call back to the Daemon Client,
whatever the confirmation dialog's outcome; the boolean passed is `false`
when the user confirmed and `true` when the user declined or dismissed. -/
theorem delConfirmation_exactly_one_answer (env : Env) (n : SyncNotification)
    (h : n.type = "del_confirmation" ∨ n.type = "del_repo_confirmation") :
    (MessagePoller.processNotification env n).filter isAddDelAct =
      [Act.addDelConfirmation n.confirmation_id (!env.confirmAnswer)] := by
  rcases h with h | h <;>
  · simp [MessagePoller.processNotification, h, SyncNotification.isCrossRepoMove,
      (by decide : strStartsWith "del_confirmation" "cross-repo-move." = false),
      (by decide :
        strStartsWith "del_repo_confirmation" "cross-repo-move." = false)]
    cases env.confirmAnswer <;> simp [isAddDelAct]

/-- C3 witness: the theorem applied to a concrete `del_confirmation`
notification with the dialog dismissed (answer `false`). -/
theorem delConfirmation_exactly_one_answer_witness :
    (MessagePoller.processNotification ⟨true, false, false, false, false⟩
        { type := "del_confirmation", confirmation_id := "c42",
          repo_name := "Docs" }).filter isAddDelAct =
      [Act.addDelConfirmation "c42" true] :=
  delConfirmation_exactly_one_answer ⟨true, false, false, false, false⟩
    { type := "del_confirmation", confirmation_id := "c42",
      repo_name := "Docs" } (Or.inl rfl)

/-- C8: stopping the poll timer when already stopped and starting it when
already running are idempotent; after any number of `onDaemonDead` calls
followed by any positive number of `onDaemonRestarted` calls, the single
timer is ticking at the default interval of 1000 ms. -/
theorem timer_restart_idempotent (n m : Nat) (t : TimerState) :
    Nat.iterate MessagePoller.onDaemonRestarted (m + 1)
        (Nat.iterate MessagePoller.onDaemonDead n t) =
      { active := true, interval := kCheckNotificationIntervalMSecs } ∧
    kCheckNotificationIntervalMSecs = 1000 ∧
    MessagePoller.onDaemonDead (MessagePoller.onDaemonDead t) =
      MessagePoller.onDaemonDead t ∧
    MessagePoller.onDaemonRestarted (MessagePoller.onDaemonRestarted t) =
      MessagePoller.onDaemonRestarted t := by
  refine ⟨?_, rfl, rfl, rfl⟩
  rw [Function.iterate_succ_apply']
  rfl

/-- C9: on every tick in which a global-sync-status payload is decoded,
the tray busy indicator is set via `rotate(isSyncing)` regardless of any
previous value, and the transfer rate is set to the decoded byte counts
when syncing and to `(0, 0)` otherwise. -/
theorem checkSyncStatus_every_tick (rpc : RpcClient) (p : Payload)
    (h1 : rpc.connected = true) (h2 : rpc.global_sync_status = some p) :
    MessagePoller.checkSyncStatus rpc =
      [Act.rotate (GlobalSyncStatus.fromJson p).is_syncing,
       Act.setTransferRate
         (if (GlobalSyncStatus.fromJson p).is_syncing then
            (GlobalSyncStatus.fromJson p).sent_bytes else 0)
         (if (GlobalSyncStatus.fromJson p).is_syncing then
            (GlobalSyncStatus.fromJson p).recv_bytes else 0)] := by
  simp only [MessagePoller.checkSyncStatus, h1, h2, Bool.not_true]
  cases h : (GlobalSyncStatus.fromJson p).is_syncing <;> simp [h]

/-- C9 witness: the theorem applied at a connected client delivering a
syncing status with 5 bytes sent and 7 received. -/
theorem checkSyncStatus_every_tick_witness :
    MessagePoller.checkSyncStatus
      { connected := true,
        global_sync_status := some
          [("is_syncing", JVal.jint 1), ("sent_bytes", JVal.jint 5),
           ("recv_bytes", JVal.jint 7)] } =
    [Act.rotate true, Act.setTransferRate 5 7] :=
  (checkSyncStatus_every_tick
      { connected := true,
        global_sync_status := some
          [("is_syncing", JVal.jint 1), ("sent_bytes", JVal.jint 5),
           ("recv_bytes", JVal.jint 7)] }
      [("is_syncing", JVal.jint 1), ("sent_bytes", JVal.jint 5),
       ("recv_bytes", JVal.jint 7)] rfl rfl).trans (by decide)

/-- A string is unequal to another of different length. -/
theorem ne_of_length_ne (u v : String) (h : u.length ≠ v.length) : u ≠ v :=
  fun e => h (by rw [e])

/-- A pattern occurs as an infix of any list that embeds it contiguously. -/
theorem isInfixChars_append (pat pre suf : List Char) :
    isInfixChars pat (pre ++ (pat ++ suf)) = true := by
  induction pre with
  | nil =>
    cases pat with
    | nil =>
      cases suf with
      | nil => rfl
      | cons c rest => simp [isInfixChars]
    | cons c rest => simp [isInfixChars]
  | cons c rest ih => simp [isInfixChars, ih]

/-- A middle component is always contained in the surrounding string. -/
theorem strContains_append_middle (a b c : String) :
    strContains (a ++ b ++ c) b = true := by
  show isInfixChars b.data (a ++ b ++ c).data = true
  rw [String.data_append, String.data_append, List.append_assoc]
  exact isInfixChars_append b.data a.data c.data

/-- The decoded tag always equals the payload's `type` field. -/
theorem SyncNotification.fromJson_type (p : Payload) :
    (SyncNotification.fromJson p).type = Json.getString p "type" := by
  unfold SyncNotification.fromJson SyncNotification.isSyncError
  dsimp only
  split
  · rfl
  · split
    · rfl
    · split
      · rfl
      · split
        · rfl
        · split <;> rfl

/-- C4 counterexample: for the payload
`(type:"fs_op_error.create_root_file", path:"/mnt/x/foo.txt")` the
dispatched show-warning action's body is the fixed text
"You can't create files in the mount folder directly", which does not
reference `"foo.txt"`; the basename appears in the title instead. -/
theorem createRootFile_body_no_basename_cex :
    (MessagePoller.processSeaDriveEvent {}
        (SeaDriveEvent.fromJson
          [("type", JVal.jstr "fs_op_error.create_root_file"),
           ("path", JVal.jstr "/mnt/x/foo.txt")])).2 =
      [Act.showWarningMessage "Failed to create file \"foo.txt\""
         "You can't create files in the mount folder directly"] ∧
    strContains "You can't create files in the mount folder directly"
      "foo.txt" = false := by
  decide

/-- C4 (amended): for the filesystem-event payload
`(type:"fs_op_error.create_root_file", path:"/mnt/x/foo.txt")`, processing
dispatches exactly one show-warning action whose title (not body)
references `"foo.txt"`, the basename of the path. -/
theorem createRootFile_warning_title_basename :
    (MessagePoller.processSeaDriveEvent {}
        (SeaDriveEvent.fromJson
          [("type", JVal.jstr "fs_op_error.create_root_file"),
           ("path", JVal.jstr "/mnt/x/foo.txt")])).2 =
      [Act.showWarningMessage "Failed to create file \"foo.txt\""
         "You can't create files in the mount folder directly"] ∧
    strContains "Failed to create file \"foo.txt\"" "foo.txt" = true ∧
    getBaseName "/mnt/x/foo.txt" = "foo.txt" := by
  decide

/-- C10: a SeaDrive event of type `file-download.start` or
`file-download.done` decodes with kind `UNKNOWN_ERROR`, dispatches an
informational message titled "Download file" whose body contains the
basename of the path, records the event type in `last_event_type_`, and
returns before the fs-op-error classification, so no warning is shown. -/
theorem fileDownload_info_no_warning (st : MessagePollerState) (path : String) :
    (SeaDriveEvent.fromJson
        [("type", JVal.jstr "file-download.start"),
         ("path", JVal.jstr path)]).fs_op_error =
      SeaDriveEvent.FsOpError.UNKNOWN_ERROR ∧
    MessagePoller.processSeaDriveEvent st
        (SeaDriveEvent.fromJson
          [("type", JVal.jstr "file-download.start"),
           ("path", JVal.jstr path)]) =
      ({ last_event_path := path, last_event_type := "file-download.start" },
       [Act.showMessage "Download file"
          ("Start to download file \"" ++ getBaseName path ++ "\" ")
          "" "" "" Severity.information]) ∧
    strContains ("Start to download file \"" ++ getBaseName path ++ "\" ")
      (getBaseName path) = true ∧
    (MessagePoller.processSeaDriveEvent st
        (SeaDriveEvent.fromJson
          [("type", JVal.jstr "file-download.start"),
           ("path", JVal.jstr path)])).2.filter isWarningAct = [] ∧
    (SeaDriveEvent.fromJson
        [("type", JVal.jstr "file-download.done"),
         ("path", JVal.jstr path)]).fs_op_error =
      SeaDriveEvent.FsOpError.UNKNOWN_ERROR ∧
    MessagePoller.processSeaDriveEvent st
        (SeaDriveEvent.fromJson
          [("type", JVal.jstr "file-download.done"),
           ("path", JVal.jstr path)]) =
      ({ last_event_path := path, last_event_type := "file-download.done" },
       [Act.showMessage "Download file"
          ("file \"" ++ getBaseName path ++ "\" has been downloaded ")
          "" "" "" Severity.information]) ∧
    strContains ("file \"" ++ getBaseName path ++ "\" has been downloaded ")
      (getBaseName path) = true ∧
    (MessagePoller.processSeaDriveEvent st
        (SeaDriveEvent.fromJson
          [("type", JVal.jstr "file-download.done"),
           ("path", JVal.jstr path)])).2.filter isWarningAct = [] := by
  have h1 : SeaDriveEvent.fromJson
      [("type", JVal.jstr "file-download.start"), ("path", JVal.jstr path)] =
      { fs_op_error := SeaDriveEvent.FsOpError.UNKNOWN_ERROR, path := path,
        type := "file-download.start" } := by
    simp [SeaDriveEvent.fromJson, Json.getString, Json.lookupKey]
  have h2 : SeaDriveEvent.fromJson
      [("type", JVal.jstr "file-download.done"), ("path", JVal.jstr path)] =
      { fs_op_error := SeaDriveEvent.FsOpError.UNKNOWN_ERROR, path := path,
        type := "file-download.done" } := by
    simp [SeaDriveEvent.fromJson, Json.getString, Json.lookupKey]
  rw [h1, h2]
  refine ⟨rfl, ?_, strContains_append_middle _ _ _, ?_, rfl, ?_,
    strContains_append_middle _ _ _, ?_⟩ <;>
    simp [MessagePoller.processSeaDriveEvent, isWarningAct]

/-- C5 counterexample: processing a `fs_op_error.create_root_file` event
writes `last_event_path_` but leaves `last_event_type_` at its previous
value, so `lastEventType` is not written for every processed event. -/
theorem lastEventType_not_always_written_cex :
    (MessagePoller.processSeaDriveEvent
        { last_event_path := "p0", last_event_type := "t0" }
        { fs_op_error := SeaDriveEvent.FsOpError.CREATE_ROOT_FILE,
          path := "/mnt/a/b", type := "fs_op_error.create_root_file" }).1 =
      { last_event_path := "/mnt/a/b", last_event_type := "t0" } ∧
    ("t0" : String) ≠ "fs_op_error.create_root_file" := by
  decide

/-- C5 (amended): for every SeaDrive filesystem event processed,
`lastEventPath` is written with the event's path; `lastEventType` is
written with the event's type only for the `file-download.start` and
`file-download.done` events, and is left unchanged otherwise; and
neither field is ever read: the dispatched actions are independent of
the previously stored values (and no other handler takes this state). -/
theorem lastEvent_state_writes (st st2 : MessagePollerState)
    (e : SeaDriveEvent) :
    (MessagePoller.processSeaDriveEvent st e).1.last_event_path = e.path ∧
    ((e.type = "file-download.start" ∨ e.type = "file-download.done") →
      (MessagePoller.processSeaDriveEvent st e).1.last_event_type = e.type) ∧
    (e.type ≠ "file-download.start" → e.type ≠ "file-download.done" →
      (MessagePoller.processSeaDriveEvent st e).1.last_event_type =
        st.last_event_type) ∧
    (MessagePoller.processSeaDriveEvent st e).2 =
      (MessagePoller.processSeaDriveEvent st2 e).2 := by
  by_cases h1 : e.type = "file-download.start"
  · simp [MessagePoller.processSeaDriveEvent, h1]
  · by_cases h2 : e.type = "file-download.done"
    · simp [MessagePoller.processSeaDriveEvent, h1, h2]
    · cases h3 : e.fs_op_error <;>
        simp [MessagePoller.processSeaDriveEvent, h1, h2, h3]

/-- C5 witness: the amended theorem applied to a concrete download event
(type written) and a concrete fs-op-error event (type untouched), from
two different prior states. -/
theorem lastEvent_state_writes_witness :
    (MessagePoller.processSeaDriveEvent
        { last_event_path := "p0", last_event_type := "t0" }
        { fs_op_error := SeaDriveEvent.FsOpError.UNKNOWN_ERROR,
          path := "/d/f.txt", type := "file-download.start" }).1.last_event_type
      = "file-download.start" ∧
    (MessagePoller.processSeaDriveEvent
        { last_event_path := "p0", last_event_type := "t0" }
        { fs_op_error := SeaDriveEvent.FsOpError.REMOVE_REPO,
          path := "/d/g", type := "fs_op_error.remove_repo" }).1.last_event_type
      = "t0" ∧
    (MessagePoller.processSeaDriveEvent
        { last_event_path := "p0", last_event_type := "t0" }
        { fs_op_error := SeaDriveEvent.FsOpError.REMOVE_REPO,
          path := "/d/g", type := "fs_op_error.remove_repo" }).2 =
      (MessagePoller.processSeaDriveEvent
        { last_event_path := "x", last_event_type := "y" }
        { fs_op_error := SeaDriveEvent.FsOpError.REMOVE_REPO,
          path := "/d/g", type := "fs_op_error.remove_repo" }).2 :=
  ⟨(lastEvent_state_writes
      { last_event_path := "p0", last_event_type := "t0" }
      { last_event_path := "x", last_event_type := "y" }
      { fs_op_error := SeaDriveEvent.FsOpError.UNKNOWN_ERROR,
        path := "/d/f.txt", type := "file-download.start" }).2.1
      (Or.inl rfl),
   (lastEvent_state_writes
      { last_event_path := "p0", last_event_type := "t0" }
      { last_event_path := "x", last_event_type := "y" }
      { fs_op_error := SeaDriveEvent.FsOpError.REMOVE_REPO,
        path := "/d/g", type := "fs_op_error.remove_repo" }).2.2.1
      (by decide) (by decide),
   (lastEvent_state_writes
      { last_event_path := "p0", last_event_type := "t0" }
      { last_event_path := "x", last_event_type := "y" }
      { fs_op_error := SeaDriveEvent.FsOpError.REMOVE_REPO,
        path := "/d/g", type := "fs_op_error.remove_repo" }).2.2.2⟩

/-- C6: for every payload in which the `type` field is absent, decoding
(total by construction in this embedding, mirroring that every C++ field
access is a defaulting lookup) yields the unknown-type records: the event
kind is `UNKNOWN_ERROR`, the notification tag is empty, the non-default
branch fields stay empty/zero, and any field whose key is absent from
the payload decodes to its empty/zero default. -/
theorem decode_missing_type_defaults (p : Payload)
    (h : Json.lookupKey p "type" = none) :
    (SeaDriveEvent.fromJson p).fs_op_error =
      SeaDriveEvent.FsOpError.UNKNOWN_ERROR ∧
    (SeaDriveEvent.fromJson p).type = "" ∧
    (Json.lookupKey p "path" = none → (SeaDriveEvent.fromJson p).path = "") ∧
    (SyncNotification.fromJson p).type = "" ∧
    (SyncNotification.fromJson p).move = {} ∧
    (SyncNotification.fromJson p).confirmation_id = "" ∧
    (SyncNotification.fromJson p).delete_files = "" ∧
    (SyncNotification.fromJson p).repo_path = "" ∧
    (SyncNotification.fromJson p).domain_id = "" ∧
    (SyncNotification.fromJson p).is_dir = false ∧
    (SyncNotification.fromJson p).error_id = 0 ∧
    (SyncNotification.fromJson p).error_path = "" ∧
    (SyncNotification.fromJson p).error = "" ∧
    (Json.lookupKey p "repo_id" = none →
      (SyncNotification.fromJson p).repo_id = "") ∧
    (Json.lookupKey p "repo_name" = none →
      (SyncNotification.fromJson p).repo_name = "") ∧
    (Json.lookupKey p "commit_id" = none →
      (SyncNotification.fromJson p).commit_id = "") ∧
    (Json.lookupKey p "parent_commit_id" = none →
      (SyncNotification.fromJson p).parent_commit_id = "") ∧
    (Json.lookupKey p "commit_desc" = none →
      (SyncNotification.fromJson p).commit_desc = "") := by
  have ht : Json.getString p "type" = "" := by simp [Json.getString, h]
  have he : SeaDriveEvent.fromJson p =
      { fs_op_error := SeaDriveEvent.FsOpError.UNKNOWN_ERROR,
        path := Json.getString p "path", type := "" } := by
    simp [SeaDriveEvent.fromJson, ht]
  have hn : SyncNotification.fromJson p =
      { type := "", repo_id := Json.getString p "repo_id",
        repo_name := Json.getString p "repo_name",
        commit_id := Json.getString p "commit_id",
        parent_commit_id := Json.getString p "parent_commit_id",
        commit_desc := Json.getString p "commit_desc" } := by
    simp [SyncNotification.fromJson, ht, SyncNotification.isSyncError,
      (by decide : strStartsWith "" "cross-repo-move." = false)]
  rw [he, hn]
  refine ⟨rfl, rfl, ?_, rfl, rfl, rfl, rfl, rfl, rfl, rfl, rfl, rfl, rfl,
    ?_, ?_, ?_, ?_, ?_⟩ <;>
    · intro hk
      simp [Json.getString, hk]

/-- C6 witness: the theorem applied to a payload carrying only an
unrelated key, so that `type` and all variant keys are absent. -/
theorem decode_missing_type_defaults_witness :
    (SeaDriveEvent.fromJson [("other", JVal.jbool true)]).fs_op_error =
      SeaDriveEvent.FsOpError.UNKNOWN_ERROR ∧
    (SeaDriveEvent.fromJson [("other", JVal.jbool true)]).path = "" ∧
    (SyncNotification.fromJson [("other", JVal.jbool true)]).type = "" ∧
    (SyncNotification.fromJson [("other", JVal.jbool true)]).repo_id = "" := by
  obtain ⟨a1, a2, a3, a4, a5, a6, a7, a8, a9, a10, a11, a12, a13, a14, a15,
      a16, a17, a18⟩ :=
    decode_missing_type_defaults [("other", JVal.jbool true)] (by decide)
  exact ⟨a1, a3 (by decide), a4, a14 (by decide)⟩

/-- Strings that wrap the same middle between prefixes of different
lengths and the same suffix are distinct. -/
theorem append_mid_ne (x y s t : String) (h : x.length ≠ y.length) :
    x ++ s ++ t ≠ y ++ s ++ t := by
  apply ne_of_length_ne
  simp only [String.length_append]
  omega

/-- Five-part version of `append_mid_ne` for the move message bodies. -/
theorem append5_ne (x y s u d v : String) (h : x.length ≠ y.length) :
    x ++ s ++ u ++ d ++ v ≠ y ++ s ++ u ++ d ++ v := by
  apply ne_of_length_ne
  simp only [String.length_append]
  omega

/-- C7: the three recognized cross-repo-move subtypes `start`, `done` and
`error` each dispatch a show-info action with pairwise-distinct title and
body (built from the basename of the source path and the parent path of
the destination), and every payload with the `cross-repo-move.` prefix
whose subtype is none of the three dispatches with empty title and empty
body, without any failure. -/
theorem crossRepoMove_subtype_titles (env : Env) (a b : String) :
    MessagePoller.processNotification env
        (SyncNotification.fromJson
          [("type", JVal.jstr "cross-repo-move.start"),
           ("srcpath", JVal.jstr a), ("dstpath", JVal.jstr b)]) =
      [Act.showMessage ("Starting to move \"" ++ getBaseName a ++ "\"")
         ("Starting to move \"" ++ getBaseName a ++ "\" to \"" ++
            (getParentPath b ++ "/") ++ "\"")
         "" "" "" Severity.information] ∧
    MessagePoller.processNotification env
        (SyncNotification.fromJson
          [("type", JVal.jstr "cross-repo-move.done"),
           ("srcpath", JVal.jstr a), ("dstpath", JVal.jstr b)]) =
      [Act.showMessage ("Successfully moved \"" ++ getBaseName a ++ "\"")
         ("Successfully moved \"" ++ getBaseName a ++ "\" to \"" ++
            (getParentPath b ++ "/") ++ "\"")
         "" "" "" Severity.information] ∧
    MessagePoller.processNotification env
        (SyncNotification.fromJson
          [("type", JVal.jstr "cross-repo-move.error"),
           ("srcpath", JVal.jstr a), ("dstpath", JVal.jstr b)]) =
      [Act.showMessage ("Failed to move \"" ++ getBaseName a ++ "\"")
         ("Failed to move \"" ++ getBaseName a ++ "\" to \"" ++
            (getParentPath b ++ "/") ++ "\"")
         "" "" "" Severity.information] ∧
    ("Starting to move \"" ++ getBaseName a ++ "\"" : String) ≠
      "Successfully moved \"" ++ getBaseName a ++ "\"" ∧
    ("Starting to move \"" ++ getBaseName a ++ "\"" : String) ≠
      "Failed to move \"" ++ getBaseName a ++ "\"" ∧
    ("Successfully moved \"" ++ getBaseName a ++ "\"" : String) ≠
      "Failed to move \"" ++ getBaseName a ++ "\"" ∧
    ("Starting to move \"" ++ getBaseName a ++ "\" to \"" ++
       (getParentPath b ++ "/") ++ "\"" : String) ≠
      "Successfully moved \"" ++ getBaseName a ++ "\" to \"" ++
        (getParentPath b ++ "/") ++ "\"" ∧
    ("Starting to move \"" ++ getBaseName a ++ "\" to \"" ++
       (getParentPath b ++ "/") ++ "\"" : String) ≠
      "Failed to move \"" ++ getBaseName a ++ "\" to \"" ++
        (getParentPath b ++ "/") ++ "\"" ∧
    ("Successfully moved \"" ++ getBaseName a ++ "\" to \"" ++
       (getParentPath b ++ "/") ++ "\"" : String) ≠
      "Failed to move \"" ++ getBaseName a ++ "\" to \"" ++
        (getParentPath b ++ "/") ++ "\"" ∧
    (∀ q : Payload,
      strStartsWith (Json.getString q "type") "cross-repo-move." = true →
      lastDotComponent (Json.getString q "type") ≠ "start" →
      lastDotComponent (Json.getString q "type") ≠ "done" →
      lastDotComponent (Json.getString q "type") ≠ "error" →
      MessagePoller.processNotification env (SyncNotification.fromJson q) =
        [Act.showMessage "" "" "" "" "" Severity.information]) := by
  have huniv : ∀ q : Payload,
      strStartsWith (Json.getString q "type") "cross-repo-move." = true →
      lastDotComponent (Json.getString q "type") ≠ "start" →
      lastDotComponent (Json.getString q "type") ≠ "done" →
      lastDotComponent (Json.getString q "type") ≠ "error" →
      MessagePoller.processNotification env (SyncNotification.fromJson q) =
        [Act.showMessage "" "" "" "" "" Severity.information] := by
    intro q hpre hs hd he
    have h1 : Json.getString q "type" ≠ "sync.done" := by
      intro e; rw [e] at hpre; exact absurd hpre (by decide)
    have h2 : Json.getString q "type" ≠ "sync.error" := by
      intro e; rw [e] at hpre; exact absurd hpre (by decide)
    have h3 : Json.getString q "type" ≠ "sync.multipart_upload" := by
      intro e; rw [e] at hpre; exact absurd hpre (by decide)
    have h4 : Json.getString q "type" ≠ "fs-loaded" := by
      intro e; rw [e] at hpre; exact absurd hpre (by decide)
    have hn : SyncNotification.fromJson q =
        { type := Json.getString q "type",
          move := { src_path := Json.getString q "srcpath",
                    dst_path := Json.getString q "dstpath",
                    type := lastDotComponent (Json.getString q "type") } } := by
      simp [SyncNotification.fromJson, hpre]
    rw [hn]
    simp [MessagePoller.processNotification, SyncNotification.isCrossRepoMove,
      hpre, h1, h2, h3, h4, hs, hd, he]
  refine ⟨?_, ?_, ?_,
    append_mid_ne _ _ _ _ (by decide), append_mid_ne _ _ _ _ (by decide),
    append_mid_ne _ _ _ _ (by decide),
    append5_ne _ _ _ _ _ _ (by decide), append5_ne _ _ _ _ _ _ (by decide),
    append5_ne _ _ _ _ _ _ (by decide), huniv⟩ <;>
    simp [SyncNotification.fromJson, MessagePoller.processNotification,
      SyncNotification.isCrossRepoMove, Json.getString, Json.lookupKey,
      (by decide :
        strStartsWith "cross-repo-move.start" "cross-repo-move." = true),
      (by decide :
        strStartsWith "cross-repo-move.done" "cross-repo-move." = true),
      (by decide :
        strStartsWith "cross-repo-move.error" "cross-repo-move." = true),
      (by decide : lastDotComponent "cross-repo-move.start" = "start"),
      (by decide : lastDotComponent "cross-repo-move.done" = "done"),
      (by decide : lastDotComponent "cross-repo-move.error" = "error")]

/-- C2 counterexample: for the unknown tag `bogus` with a `repo_id` key
present, the decoder takes the shared default branch and populates
`repo_id` from the payload, so the decoded record is not minimal: a
variant-specific field is non-empty. -/
theorem syncNotification_unknown_tag_cex :
    isKnownNotificationTag "bogus" = false ∧
    (SyncNotification.fromJson
        [("type", JVal.jstr "bogus"), ("repo_id", JVal.jstr "X")]).type =
      "bogus" ∧
    (SyncNotification.fromJson
        [("type", JVal.jstr "bogus"), ("repo_id", JVal.jstr "X")]).repo_id =
      "X" ∧
    (SyncNotification.fromJson
        [("type", JVal.jstr "bogus"), ("repo_id", JVal.jstr "X")]).repo_id ≠
      "" := by
  decide

/-- C2 (amended): for the recognized variant tags the decoder populates
only the selected variant's fields (all other variant fields stay at
their empty/zero defaults); for a tag matching no known variant the
decoder takes the same branch as the sync-lifecycle variants, populating
`repo_id`/`repo_name`/`commit_id`/... from the payload (empty when the
keys are absent) while the move/confirmation/action fields stay empty,
and the caller only logs an unknown-message warning. -/
theorem syncNotification_variant_fields (p : Payload) (env : Env) :
    (strStartsWith (Json.getString p "type") "cross-repo-move." = true →
      (SyncNotification.fromJson p).repo_id = "" ∧
      (SyncNotification.fromJson p).repo_name = "" ∧
      (SyncNotification.fromJson p).commit_id = "" ∧
      (SyncNotification.fromJson p).parent_commit_id = "" ∧
      (SyncNotification.fromJson p).commit_desc = "" ∧
      (SyncNotification.fromJson p).confirmation_id = "" ∧
      (SyncNotification.fromJson p).delete_files = "" ∧
      (SyncNotification.fromJson p).repo_path = "" ∧
      (SyncNotification.fromJson p).domain_id = "" ∧
      (SyncNotification.fromJson p).error = "" ∧
      (SyncNotification.fromJson p).error_id = 0 ∧
      (SyncNotification.fromJson p).is_dir = false) ∧
    (Json.getString p "type" = "del_confirmation" →
      (SyncNotification.fromJson p).move = {} ∧
      (SyncNotification.fromJson p).repo_id = "" ∧
      (SyncNotification.fromJson p).commit_id = "" ∧
      (SyncNotification.fromJson p).commit_desc = "" ∧
      (SyncNotification.fromJson p).repo_path = "" ∧
      (SyncNotification.fromJson p).domain_id = "" ∧
      (SyncNotification.fromJson p).error = "" ∧
      (SyncNotification.fromJson p).is_dir = false) ∧
    (Json.getString p "type" = "del_repo_confirmation" →
      (SyncNotification.fromJson p).move = {} ∧
      (SyncNotification.fromJson p).repo_id = "" ∧
      (SyncNotification.fromJson p).delete_files = "" ∧
      (SyncNotification.fromJson p).error = "" ∧
      (SyncNotification.fromJson p).repo_path = "") ∧
    ((Json.getString p "type" = "action.get_share_link" ∨
      Json.getString p "type" = "action.get_internal_link" ∨
      Json.getString p "type" = "action.get_upload_link" ∨
      Json.getString p "type" = "action.view_file_history") →
      (SyncNotification.fromJson p).move = {} ∧
      (SyncNotification.fromJson p).repo_name = "" ∧
      (SyncNotification.fromJson p).commit_id = "" ∧
      (SyncNotification.fromJson p).commit_desc = "" ∧
      (SyncNotification.fromJson p).confirmation_id = "" ∧
      (SyncNotification.fromJson p).delete_files = "" ∧
      (SyncNotification.fromJson p).error = "") ∧
    (isKnownNotificationTag (Json.getString p "type") = false →
      (SyncNotification.fromJson p).move = {} ∧
      (SyncNotification.fromJson p).confirmation_id = "" ∧
      (SyncNotification.fromJson p).delete_files = "" ∧
      (SyncNotification.fromJson p).repo_path = "" ∧
      (SyncNotification.fromJson p).domain_id = "" ∧
      (SyncNotification.fromJson p).is_dir = false ∧
      (SyncNotification.fromJson p).error_id = 0 ∧
      (SyncNotification.fromJson p).error = "" ∧
      (SyncNotification.fromJson p).repo_id = Json.getString p "repo_id" ∧
      (SyncNotification.fromJson p).repo_name = Json.getString p "repo_name" ∧
      (SyncNotification.fromJson p).commit_id = Json.getString p "commit_id" ∧
      MessagePoller.processNotification env (SyncNotification.fromJson p) =
        [Act.logUnknownNotification (Json.getString p "type")]) := by
  refine ⟨?_, ?_, ?_, ?_, ?_⟩
  · intro h
    simp [SyncNotification.fromJson, h]
  · intro h
    simp [SyncNotification.fromJson, h,
      (by decide : strStartsWith "del_confirmation" "cross-repo-move." = false)]
  · intro h
    simp [SyncNotification.fromJson, h,
      (by decide :
        strStartsWith "del_repo_confirmation" "cross-repo-move." = false)]
  · intro h
    rcases h with h | h | h | h <;>
      simp [SyncNotification.fromJson, h,
        (by decide :
          strStartsWith "action.get_share_link" "cross-repo-move." = false),
        (by decide :
          strStartsWith "action.get_internal_link" "cross-repo-move." = false),
        (by decide :
          strStartsWith "action.get_upload_link" "cross-repo-move." = false),
        (by decide :
          strStartsWith "action.view_file_history" "cross-repo-move." = false)]
  · intro h
    simp only [isKnownNotificationTag, Bool.or_eq_false_iff,
      beq_eq_false_iff_ne, ne_eq] at h
    obtain ⟨⟨⟨⟨⟨⟨⟨⟨⟨⟨h1, h2⟩, h3⟩, h4⟩, h5⟩, h6⟩, h7⟩, h8⟩, h9⟩, h10⟩, h11⟩ := h
    have hn : SyncNotification.fromJson p =
        { type := Json.getString p "type",
          repo_id := Json.getString p "repo_id",
          repo_name := Json.getString p "repo_name",
          commit_id := Json.getString p "commit_id",
          parent_commit_id := Json.getString p "parent_commit_id",
          commit_desc := Json.getString p "commit_desc" } := by
      simp [SyncNotification.fromJson, SyncNotification.isSyncError,
        h2, h5, h6, h7, h8, h9, h10, h11]
    rw [hn]
    refine ⟨rfl, rfl, rfl, rfl, rfl, rfl, rfl, rfl, rfl, rfl, rfl, ?_⟩
    simp [MessagePoller.processNotification, SyncNotification.isCrossRepoMove,
      h1, h2, h3, h4, h5, h6, h7, h8, h9, h10, h11]

/-- C2 witness: the amended theorem applied at one payload per branch
(a cross-repo-move tag, the two confirmation tags, an action tag, and an
unknown tag carrying a `repo_id`). -/
theorem syncNotification_variant_fields_witness :
    (SyncNotification.fromJson
        [("type", JVal.jstr "cross-repo-move.done")]).repo_id = "" ∧
    (SyncNotification.fromJson
        [("type", JVal.jstr "del_confirmation")]).move = {} ∧
    (SyncNotification.fromJson
        [("type", JVal.jstr "del_repo_confirmation")]).move = {} ∧
    (SyncNotification.fromJson
        [("type", JVal.jstr "action.get_upload_link")]).move = {} ∧
    MessagePoller.processNotification ⟨true, false, true, false, false⟩
        (SyncNotification.fromJson
          [("type", JVal.jstr "bogus"), ("repo_id", JVal.jstr "RID")]) =
      [Act.logUnknownNotification "bogus"] := by
  obtain ⟨b1, _⟩ :=
    (syncNotification_variant_fields [("type", JVal.jstr "cross-repo-move.done")]
      ⟨true, false, true, false, false⟩).1 (by decide)
  obtain ⟨b2, _⟩ :=
    (syncNotification_variant_fields [("type", JVal.jstr "del_confirmation")]
      ⟨true, false, true, false, false⟩).2.1 (by decide)
  obtain ⟨b3, _⟩ :=
    (syncNotification_variant_fields
      [("type", JVal.jstr "del_repo_confirmation")]
      ⟨true, false, true, false, false⟩).2.2.1 (by decide)
  obtain ⟨b4, _⟩ :=
    (syncNotification_variant_fields
      [("type", JVal.jstr "action.get_upload_link")]
      ⟨true, false, true, false, false⟩).2.2.2.1 (Or.inr (Or.inr (Or.inl (by decide))))
  obtain ⟨_, _, _, _, _, _, _, _, _, _, _, b5⟩ :=
    (syncNotification_variant_fields
      [("type", JVal.jstr "bogus"), ("repo_id", JVal.jstr "RID")]
      ⟨true, false, true, false, false⟩).2.2.2.2 (by decide)
  exact ⟨b1, b2, b3, b4, b5.trans (by decide)⟩

/-- C7 witness: the theorem applied at concrete source and destination
paths, with the start action and one title disequation evaluated, and
the universal unrecognized-subtype clause instantiated at the concrete
subtype `rename` with its hypotheses discharged. -/
theorem crossRepoMove_subtype_titles_witness :
    MessagePoller.processNotification ⟨true, false, true, false, false⟩
        (SyncNotification.fromJson
          [("type", JVal.jstr "cross-repo-move.start"),
           ("srcpath", JVal.jstr "/r/a.txt"),
           ("dstpath", JVal.jstr "/s/b")]) =
      [Act.showMessage "Starting to move \"a.txt\""
         "Starting to move \"a.txt\" to \"/s/\"" "" "" ""
         Severity.information] ∧
    ("Starting to move \"a.txt\"" : String) ≠
      "Successfully moved \"a.txt\"" ∧
    MessagePoller.processNotification ⟨true, false, true, false, false⟩
        (SyncNotification.fromJson
          [("type", JVal.jstr "cross-repo-move.rename"),
           ("srcpath", JVal.jstr "/r/a.txt"),
           ("dstpath", JVal.jstr "/s/b")]) =
      [Act.showMessage "" "" "" "" "" Severity.information] := by
  obtain ⟨e1, _, _, _, _, _, _, _, _, hu⟩ := crossRepoMove_subtype_titles
    ⟨true, false, true, false, false⟩ "/r/a.txt" "/s/b"
  exact ⟨e1.trans (by decide), by decide,
    hu [("type", JVal.jstr "cross-repo-move.rename"),
        ("srcpath", JVal.jstr "/r/a.txt"), ("dstpath", JVal.jstr "/s/b")]
      (by decide) (by decide) (by decide) (by decide)⟩
